import Mathlib

/-!
Verification development for the GitLab issue aggregation and AI
summarization pipeline (fetch_gitlab_issues.py and app.py).

The Python source is shallowly embedded: pure string manipulation is
translated to Lean functions over String (whose data is a list of
characters, matching Python code-point indexing); the network calls to
the issue tracker and to the LLM providers are oracles passed in as
explicit function arguments; the process-global LLM client cache is
threaded as explicit state.  Machine-level concerns (floats for the
sampling temperature) are recorded as tenths in a Nat field.
-/

namespace GitlabPipeline

/-! ## Python string primitives, modelled over the character list of a String -/

/-- Python len(s): number of code points. -/
def pyLen (s : String) : Nat := s.data.length

/-- Python slicing s[:n]: the first n code points. -/
def pySlice (s : String) (n : Nat) : String := String.mk (s.data.take n)

/-- Python s.startswith(pre). -/
def pyStartsWith (s pre : String) : Bool := pre.data.isPrefixOf s.data

/-- Python removal of a leading text of known length, as in
url.replace with a single leading occurrence. -/
def pyDropChars (s : String) (n : Nat) : String := String.mk (s.data.drop n)

/-- Python s.isdigit() restricted to ASCII digits: nonempty and all digits. -/
def pyIsDigit (s : String) : Bool := !s.data.isEmpty && s.data.all Char.isDigit

/-- Python int(s) on a digit string. -/
def pyToNat (s : String) : Nat := s.data.foldl (fun a c => a * 10 + (c.toNat - 48)) 0

/-- Python s.strip(): drop whitespace at both ends. -/
def pyStrip (s : String) : String :=
  String.mk (((s.data.dropWhile Char.isWhitespace).reverse.dropWhile Char.isWhitespace).reverse)

/-- Python s.lower(). -/
def pyLower (s : String) : String := String.mk (s.data.map Char.toLower)

/-- Python sep.join(xs). -/
def pyJoin (sep : String) (xs : List String) : String :=
  match xs with
  | [] => ""
  | x :: rest => rest.foldl (fun a b => a ++ sep ++ b) x

/-- Python truthiness of an optional string (None and the empty string
are falsy). -/
def strTruthy : Option String → Bool
  | none => false
  | some s => s ≠ ""

/-- Python x or y for optional strings: keep x when truthy, else y. -/
def pyOrStr (x y : Option String) : Option String :=
  if strTruthy x then x else y

/-- Python pattern m = m_opt; if not m: m = d, used for defaulted model names. -/
def orDefault (o : Option String) (d : String) : String :=
  match o with
  | some s => if s = "" then d else s
  | none => d

/-! ## Data model (fields the source actually reads) -/

/-- User reference dict with username and display name. -/
structure UserRef where
  username : String
  name : String
deriving DecidableEq

/-- Comment dict built in the notes loop of fetch_issues_by_username:
id, author username, body, created_at, and the optional llm_summary key
added when an LLM client is supplied. -/
structure Comment where
  id : Nat
  author : String
  body : String
  created_at : String
  llm_summary : Option String
deriving DecidableEq

/-- Entry of the comments list attached to an issue: either a comment
dict or the error-marker dict carrying only an error key. -/
inductive CommentEntry where
  | note (c : Comment)
  | err (msg : String)
deriving DecidableEq

/-- Raw note returned by the tracker; the code reads id, the author
username, body and created_at. -/
structure Note where
  id : Nat
  author_username : String
  body : String
  created_at : String
deriving DecidableEq

/-- GitLab issue as returned by the tracker, before comments are
attached (fields read anywhere in the source). -/
structure Issue where
  iid : Nat
  id : Nat
  title : String
  state : String
  created_at : String
  updated_at : String
  closed_at : Option String
  author : UserRef
  assignee : Option UserRef
  description : Option String
  web_url : String
deriving DecidableEq

/-- Issue after the loop that assigns issue.comments. -/
structure FetchedIssue where
  base : Issue
  comments : List CommentEntry
deriving DecidableEq

/-! ## Project locator parsing (head of fetch_issues_by_username) -/

/-- Project path or numeric project id. -/
inductive ProjectLocator where
  | path (p : String)
  | pid (n : Nat)
deriving DecidableEq

/-- Parsing of the project_url argument: a gitlab.com URL yields the
trailing path, a digit string yields the numeric id, anything else is
the local validation failure (printed error, empty-list return). -/
def parseProjectUrl (project_url : String) : Option ProjectLocator :=
  if pyStartsWith project_url "https://gitlab.com/" then
    some (ProjectLocator.path (pyDropChars project_url (pyLen "https://gitlab.com/")))
  else if pyIsDigit project_url then
    some (ProjectLocator.pid (pyToNat project_url))
  else
    none

/-! ## LLM provider model (setup_llm_client, get_default_model) -/

/-- Environment credential slots read through os.getenv. -/
structure Env where
  groq_api_key : Option String
  openai_api_key : Option String
  gitlab_access_token : Option String
deriving DecidableEq

/-- Constructed provider client; the tag records which SDK constructor
produced it (groq.Groq or openai.OpenAI).  Construction itself performs
no network call, so it is modelled as always succeeding; the two SDK
packages are taken as installed, so GROQ_AVAILABLE and OPENAI_AVAILABLE
of the source are the constant true here. -/
structure Client where
  tag : String
deriving DecidableEq

/-- Translation of setup_llm_client: lower-case dispatch on the
provider name, credential lookup with argument-over-environment
precedence and Python truthiness, literal provider identity in the
successful returns, and the (None, provider) failures for a missing key
or an unknown provider. -/
def setup_llm_client (env : Env) (provider : String) (api_key : Option String) :
    Option Client × String :=
  if pyLower provider = "groq" then
    let key := pyOrStr api_key env.groq_api_key
    if !strTruthy key then (none, provider)
    else (some (Client.mk "groq"), "groq")
  else if pyLower provider = "openai" then
    let key := pyOrStr api_key env.openai_api_key
    if !strTruthy key then (none, provider)
    else (some (Client.mk "openai"), "openai")
  else
    (none, provider)

/-- Translation of get_default_model. -/
def get_default_model (provider : String) : String :=
  if provider = "groq" then "llama-3.3-70b-versatile"
  else if provider = "openai" then "gpt-3.5-turbo"
  else "llama-3.3-70b-versatile"

/-! ## Chat completion oracle -/

/-- One choice of a chat completion response; content is optional
because the SDK field can be null. -/
structure ChatChoice where
  content : Option String
deriving DecidableEq

/-- Chat completion response: a list of choices. -/
structure ChatResponse where
  choices : List ChatChoice
deriving DecidableEq

/-- Outcome of client.chat.completions.create: either a raised
exception (any transport or SDK error) or a response value. -/
inductive LLMOutcome where
  | raise (msg : String)
  | response (r : ChatResponse)
deriving DecidableEq

/-- The full argument record of one client.chat.completions.create
call; temperature is recorded in tenths (0.3 becomes 3). -/
structure ChatRequest where
  client_tag : String
  model : String
  system_msg : String
  user_msg : String
  max_tokens : Nat
  temperature_tenths : Nat
deriving DecidableEq

/-- Oracle for the provider network: maps each completion call to its
outcome. -/
def LLMOracle := ChatRequest → LLMOutcome

/-- Evaluation of response.choices[0].message.content.strip() inside a
try block: an empty choices list raises IndexError, a null content
raises AttributeError on strip, and a present string is stripped. -/
def extract_choice_content (r : ChatResponse) : Except String String :=
  match r.choices with
  | [] => Except.error "list index out of range"
  | c :: _ =>
    match c.content with
    | none => Except.error "NoneType object has no attribute strip"
    | some s => Except.ok (pyStrip s)

/-! ## Duck-typed issue view used by the summarization functions

summarize_issue_with_llm and summarize_issues_collection_with_llm are
called both with fetched GitLab issues (which carry a comments
attribute) and with the MockIssue objects built in summarize_logic
(which do not).  This record is the union of the attributes those
functions read; comments is none exactly when the attribute is absent. -/
structure DuckIssue where
  iid_opt : Option Nat
  title : String
  state : String
  author : UserRef
  created_at : String
  description : Option String
  comments : Option (List CommentEntry)
deriving DecidableEq

/-- Python rendering of issue.iid inside an f-string; a missing iid
prints as None. -/
def iidStr : Option Nat → String
  | some n => toString n
  | none => "None"

/-- Per-entry line of the comments text: c.get(body) is falsy for the
error-marker dict (no body key) and for an empty body, so those entries
are filtered out; the author falls back to unknown. -/
def comment_line : CommentEntry → Option String
  | CommentEntry.note c => if c.body ≠ "" then some (c.author ++ ": " ++ c.body) else none
  | CommentEntry.err _ => none

/-- comments_text of summarize_issue_with_llm: empty unless the issue
has a comments attribute holding a nonempty list. -/
def comments_text (issue : DuckIssue) : String :=
  match issue.comments with
  | none => ""
  | some cs =>
    if cs.isEmpty then ""
    else pyJoin "\n" (cs.filterMap comment_line)

/-- Rendering of the Comments section of the individual-issue prompt:
comments_text or the No comments placeholder. -/
def thread_section (issue : DuckIssue) : String :=
  let ct := comments_text issue
  if ct = "" then "No comments" else ct

/-- Rendering of the Description section: description or the
placeholder, with None and the empty string both falsy. -/
def description_section (d : Option String) : String :=
  match d with
  | some s => if s = "" then "No description provided" else s
  | none => "No description provided"

/-- issue_content block of summarize_issue_with_llm (the triple-quoted
f-string, with its line structure). -/
def issue_content (issue : DuckIssue) : String :=
  "\n    Issue #" ++ iidStr issue.iid_opt ++ ": " ++ issue.title ++ "\n"
    ++ "    State: " ++ issue.state ++ "\n"
    ++ "    Author: " ++ issue.author.name ++ " (@" ++ issue.author.username ++ ")\n"
    ++ "    Created: " ++ issue.created_at ++ "\n"
    ++ "    Description:\n"
    ++ "    " ++ description_section issue.description ++ "\n"
    ++ "    Comments:\n"
    ++ "    " ++ thread_section issue ++ "\n    "

/-- User prompt of summarize_issue_with_llm. -/
def issue_prompt (issue : DuckIssue) : String :=
  "\n    Please provide a concise summary (2-3 sentences) of this GitLab issue, including the latest updates and discussions from the comments:\n    "
    ++ issue_content issue
    ++ "\n    Focus on:\n    - What the issue is about\n    - Current status/state\n    - Key actionable points or recent discussions from the comments\n    "

/-- Translation of summarize_issue_with_llm: placeholder without a
client, model defaulting, one completion call at 200 tokens and
temperature 0.3, and the catch-all conversion of exceptions and
malformed responses into an error string embedding the cause. -/
def summarize_issue_with_llm (oracle : LLMOracle) (issue : DuckIssue)
    (client : Option Client) (provider : String) (model : Option String) : String :=
  match client with
  | none => "LLM summarization not available"
  | some cl =>
    let m := orDefault model (get_default_model provider)
    let req : ChatRequest :=
      { client_tag := cl.tag, model := m
        system_msg := "You are a helpful assistant that summarizes software development issues clearly and concisely, including the latest comments."
        user_msg := issue_prompt issue
        max_tokens := 200, temperature_tenths := 3 }
    match oracle req with
    | LLMOutcome.raise e => "Error generating summary: " ++ e
    | LLMOutcome.response r =>
      match extract_choice_content r with
      | Except.error e => "Error generating summary: " ++ e
      | Except.ok s => s

/-! ## Collection overview and collection summary -/

/-- Description preview of the overview loop: the first 100 characters
plus an ellipsis when the description is longer than 100 characters,
the description itself otherwise. -/
def desc_preview (d : String) : String :=
  if 100 < pyLen d then pySlice d 100 ++ "..." else d

/-- Text appended to issues_overview by one iteration of the overview
loop: the identifier/title/state line, the optional description line
(description truthy), and a blank line. -/
def overview_entry (issue : DuckIssue) : String :=
  "- Issue #" ++ iidStr issue.iid_opt ++ ": " ++ issue.title ++ " (" ++ issue.state ++ ")\n"
    ++ (match issue.description with
        | some d => if d ≠ "" then "  Description: " ++ desc_preview d ++ "\n" else ""
        | none => "")
    ++ "\n"

/-- Header line of issues_overview. -/
def overview_header (issues : List DuckIssue) : String :=
  "Total issues: " ++ toString issues.length ++ "\n\n"

/-- issues_overview of summarize_issues_collection_with_llm: the header,
the loop over issues[:10] appending overview entries, and the
remainder-count line when more than 10 issues exist. -/
def issues_overview (issues : List DuckIssue) : String :=
  let body := (issues.take 10).foldl (fun acc i => acc ++ overview_entry i) (overview_header issues)
  if 10 < issues.length then
    body ++ "... and " ++ toString (issues.length - 10) ++ " more issues\n"
  else body

/-- User prompt of summarize_issues_collection_with_llm. -/
def collection_prompt (issues : List DuckIssue) : String :=
  "\n    Please provide a high-level summary of this collection of GitLab issues:\n    \n    "
    ++ issues_overview issues
    ++ "\n    \n    Include:\n    - Overall themes or patterns\n    - Distribution of issue states (open/closed)\n    - Key areas of focus or concern\n    - Any notable trends\n    \n    Keep it concise (3-4 sentences).\n    "

/-- Translation of summarize_issues_collection_with_llm: the combined
guard on a missing client or an empty collection, model defaulting, one
completion call at 200 tokens, and the catch-all error conversion. -/
def summarize_issues_collection_with_llm (oracle : LLMOracle) (issues : List DuckIssue)
    (client : Option Client) (provider : String) (model : Option String) : String :=
  match client with
  | none => "No issues to summarize or LLM not available"
  | some cl =>
    if issues.isEmpty then "No issues to summarize or LLM not available"
    else
      let m := orDefault model (get_default_model provider)
      let req : ChatRequest :=
        { client_tag := cl.tag, model := m
          system_msg := "You are a helpful assistant that analyzes and summarizes software development issues to provide insights."
          user_msg := collection_prompt issues
          max_tokens := 200, temperature_tenths := 3 }
      match oracle req with
      | LLMOutcome.raise e => "Error generating collection summary: " ++ e
      | LLMOutcome.response r =>
        match extract_choice_content r with
        | Except.error e => "Error generating collection summary: " ++ e
        | Except.ok s => s

/-- User prompt of summarize_comment_with_llm. -/
def comment_summary_prompt (c : Comment) : String :=
  "\n    Please provide a concise summary (1-2 sentences) of this GitLab comment:\n    "
    ++ "\n    Comment by " ++ c.author ++ " at " ++ c.created_at ++ ":\n    " ++ c.body ++ "\n    "
    ++ "\n    Focus on the main point or update in the comment.\n    "

/-- Translation of summarize_comment_with_llm: placeholder without a
client, model defaulting, one completion call at 80 tokens, catch-all
error conversion. -/
def summarize_comment_with_llm (oracle : LLMOracle) (c : Comment)
    (client : Option Client) (provider : String) (model : Option String) : String :=
  match client with
  | none => "LLM summarization not available"
  | some cl =>
    let m := orDefault model (get_default_model provider)
    let req : ChatRequest :=
      { client_tag := cl.tag, model := m
        system_msg := "You are a helpful assistant that summarizes software development comments clearly and concisely."
        user_msg := comment_summary_prompt c
        max_tokens := 80, temperature_tenths := 3 }
    match oracle req with
    | LLMOutcome.raise e => "Error generating comment summary: " ++ e
    | LLMOutcome.response r =>
      match extract_choice_content r with
      | Except.error e => "Error generating comment summary: " ++ e
      | Except.ok s => s

/-! ## Issue tracker oracle and fetch_issues_by_username -/

/-- Network calls the fetch function can make against the tracker; the
log of these is instrumentation recording which API invocations the
code performs on the path taken. -/
inductive ApiCall where
  | projectGet
  | listAssignee
  | listAuthor
  | listNotes (iid : Nat)
deriving DecidableEq

/-- Tracker oracle: outcome of each tracker API call.  Except.error
models a raised gitlab.GitlabError or other exception. -/
structure Tracker where
  projectGet : Except String Unit
  listAssignee : Except String (List Issue)
  listAuthor : Except String (List Issue)
  listNotes : Issue → Except String (List Note)

/-- Construction of one comment dict in the notes loop, with the
llm_summary key added when an LLM client and provider are supplied; the
csum argument stands for the closure
summarize_comment_with_llm(comment, llm_client, provider, model) and is
some exactly when llm_client and provider are both truthy. -/
def mkCommentEntry (csum : Option (Comment → String)) (n : Note) : CommentEntry :=
  let c : Comment :=
    { id := n.id, author := n.author_username, body := n.body
      created_at := n.created_at, llm_summary := none }
  match csum with
  | none => CommentEntry.note c
  | some f => CommentEntry.note { c with llm_summary := some (f c) }

/-- Per-issue body of the comments loop: the inner try block fetching
all notes ascending and building comment dicts; on a raised error the
comments list is the single error-marker dict (the sole statement that
can raise is the notes listing, which raises before any comment is
built). -/
def attach_comments (tr : Tracker) (csum : Option (Comment → String)) (issue : Issue) :
    FetchedIssue :=
  match tr.listNotes issue with
  | Except.error e =>
    { base := issue
      comments := [CommentEntry.err ("Failed to fetch or summarize comments: " ++ e)] }
  | Except.ok notes =>
    { base := issue, comments := notes.map (mkCommentEntry csum) }

/-- Dedup step of fetch_issues_by_username: authored_issue_ids is the
iid set of the issues gathered so far (the assignee-relation list when
that branch ran), computed once before the append loop; membership in
that Python set coincides with membership in the iid list. -/
def merge_issues (issues authored : List Issue) : List Issue :=
  let authored_issue_ids := issues.map Issue.iid
  issues ++ authored.filter (fun i => !authored_issue_ids.contains i.iid)

/-- Translation of fetch_issues_by_username, also returning the log of
tracker API calls performed on the taken path.  The URL validation
failure and every caught exception all return the empty list, exactly
as the source does. -/
def fetch_issues_by_username (tr : Tracker) (project_url username : String)
    (assignee author : Bool) (csum : Option (Comment → String)) :
    List FetchedIssue × List ApiCall :=
  match parseProjectUrl project_url with
  | none => ([], [])
  | some _ =>
    match tr.projectGet with
    | Except.error _ => ([], [ApiCall.projectGet])
    | Except.ok _ =>
      let log0 := [ApiCall.projectGet]
      let step1 : Except (List ApiCall) (List Issue × List ApiCall) :=
        if assignee then
          match tr.listAssignee with
          | Except.error _ => Except.error (log0 ++ [ApiCall.listAssignee])
          | Except.ok assigned => Except.ok (assigned, log0 ++ [ApiCall.listAssignee])
        else Except.ok ([], log0)
      match step1 with
      | Except.error log => ([], log)
      | Except.ok (issues1, log1) =>
        let step2 : Except (List ApiCall) (List Issue × List ApiCall) :=
          if author then
            match tr.listAuthor with
            | Except.error _ => Except.error (log1 ++ [ApiCall.listAuthor])
            | Except.ok authored => Except.ok (merge_issues issues1 authored, log1 ++ [ApiCall.listAuthor])
          else Except.ok (issues1, log1)
        match step2 with
        | Except.error log => ([], log)
        | Except.ok (issues2, log2) =>
          (issues2.map (attach_comments tr csum),
            log2 ++ issues2.map (fun i => ApiCall.listNotes i.iid))

/-! ## app.py: cached client and provider resolution -/

/-- The process-global _llm_client and _llm_provider pair; the two are
always assigned together, so the cache is an optional pair. -/
abbrev LLMCache := Option (Client × String)

/-- Translation of get_llm_client: on an empty cache try the Groq
credential first, then the OpenAI credential, else report (None, None)
leaving the cache empty; a filled cache is returned as is.  The client
and provider travel as one optional pair because the source always
assigns and returns the two globals together (client construction,
modelled total, cannot leave a None client with a set provider). -/
def get_llm_client (env : Env) (st : LLMCache) :
    Option (Client × String) × LLMCache :=
  match st with
  | some (c, p) => (some (c, p), some (c, p))
  | none =>
    if strTruthy env.groq_api_key then
      let (c, p) := setup_llm_client env "groq" env.groq_api_key
      let pair := match c with | some cl => some (cl, p) | none => none
      (pair, pair)
    else if strTruthy env.openai_api_key then
      let (c, p) := setup_llm_client env "openai" env.openai_api_key
      let pair := match c with | some cl => some (cl, p) | none => none
      (pair, pair)
    else
      (none, none)

/-- Requested-provider switch inside summarize_logic (the lines guarded
by provider != current_provider): look up the credential slot named by
the requested provider (any name other than groq reads the OpenAI
slot), and rebind the local client and provider exactly when that
credential is truthy; the global cache is not written. -/
def resolve_provider (env : Env) (client : Client) (current_provider : String)
    (provider : String) : Option Client × String :=
  if provider ≠ current_provider then
    let api_key := if provider = "groq" then env.groq_api_key else env.openai_api_key
    if strTruthy api_key then setup_llm_client env provider api_key
    else (some client, current_provider)
  else (some client, current_provider)

/-! ## app.py: request dicts, MockIssue, summarize_logic -/

/-- Issue dict as supplied in the issues field of a summarize request
(the keys MockIssue reads, plus comments to record that a caller may
supply a thread which MockIssue ignores).  none stands for an absent or
null key. -/
structure IssueDict where
  iid : Option Nat
  id : Option Nat
  title : Option String
  state : Option String
  created_at : Option String
  description : Option String
  author : Option UserRef
  comments : Option (List CommentEntry)
deriving DecidableEq

/-- Translation of the MockIssue class of summarize_logic: the
constructor copies six keys with defaults and defines no comments
attribute. -/
structure MockIssue where
  iid : Option Nat
  title : String
  state : String
  created_at : String
  description : Option String
  author : UserRef
deriving DecidableEq

/-- MockIssue.__init__ on one issue dict. -/
def mkMockIssue (d : IssueDict) : MockIssue :=
  { iid := match d.iid with | some n => some n | none => d.id
    title := d.title.getD ""
    state := d.state.getD ""
    created_at := d.created_at.getD ""
    description := d.description
    author := d.author.getD { username := "unknown", name := "Unknown" } }

/-- View of a MockIssue through the duck-typed attribute reads of the
summarization functions: hasattr(issue, comments) is false, so the
comments slot is none. -/
def duckOfMock (m : MockIssue) : DuckIssue :=
  { iid_opt := m.iid, title := m.title, state := m.state
    author := m.author, created_at := m.created_at
    description := m.description, comments := none }

/-- View of a fetched issue through the same attribute reads: the
comments attribute was assigned by the fetch loop, so it is present. -/
def duckOfFetched (f : FetchedIssue) : DuckIssue :=
  { iid_opt := some f.base.iid, title := f.base.title, state := f.base.state
    author := f.base.author, created_at := f.base.created_at
    description := f.base.description, comments := some f.comments }

/-- Payload of a summarize request, with the defaults applied by the
data.get calls of summarize_logic. -/
structure SummarizeRequest where
  issues : List IssueDict
  query : String
  type_of_summary : String
  provider : String
  model : Option String

/-- One entry of individual_summaries. -/
structure IndivEntry where
  issue_id : Option Nat
  title : String
  summary : String
deriving DecidableEq

/-- Response dict of the app endpoints, one optional slot per key a
handler can set; none means the key is absent from the dict. -/
structure ApiResponse where
  success : Option Bool := none
  error : Option String := none
  issues : Option (List Issue) := none
  count : Option Nat := none
  project_url : Option String := none
  username : Option String := none
  provider : Option String := none
  model : Option String := none
  query : Option String := none
  individual_summaries : Option (List IndivEntry) := none
  collection_summary : Option String := none
  summary_error : Option String := none
deriving DecidableEq

/-- Python dict.update(b) on two response dicts: every key present in b
overrides, keys absent from b are kept. -/
def dictUpdate (a b : ApiResponse) : ApiResponse :=
  { success := b.success <|> a.success
    error := b.error <|> a.error
    issues := b.issues <|> a.issues
    count := b.count <|> a.count
    project_url := b.project_url <|> a.project_url
    username := b.username <|> a.username
    provider := b.provider <|> a.provider
    model := b.model <|> a.model
    query := b.query <|> a.query
    individual_summaries := b.individual_summaries <|> a.individual_summaries
    collection_summary := b.collection_summary <|> a.collection_summary
    summary_error := b.summary_error <|> a.summary_error }

/-- Query-path block of summarize_logic (the custom prompt, its
completion call at 300 tokens, and the try/except conversion of any
raised error into the custom-summary error string).  A missing client
raises an AttributeError on the chat attribute inside the try block. -/
def query_summary (oracle : LLMOracle) (mock_issues : List MockIssue)
    (client : Option Client) (model : String) (query : String) : String :=
  let issues_overview :=
    (mock_issues.take 10).foldl
      (fun acc i =>
        acc ++ "- Issue #" ++ iidStr i.iid ++ ": " ++ i.title ++ " (" ++ i.state ++ ")\n")
      ("User Query: " ++ query ++ "\n\nIssues Summary:\n")
  let prompt :=
    "\n        Based on the users query: \"" ++ query ++ "\"\n        Please analyze these GitLab issues and provide a relevant response:\n        "
      ++ issues_overview
      ++ "\n        Focus on answering the users specific question while providing insights from the issues.\n        "
  match client with
  | none => "Error generating custom summary: NoneType object has no attribute chat"
  | some cl =>
    let req : ChatRequest :=
      { client_tag := cl.tag, model := model
        system_msg := "You are a helpful assistant that analyzes GitLab issues and answers user questions."
        user_msg := prompt
        max_tokens := 300, temperature_tenths := 3 }
    match oracle req with
    | LLMOutcome.raise e => "Error generating custom summary: " ++ e
    | LLMOutcome.response r =>
      match extract_choice_content r with
      | Except.error e => "Error generating custom summary: " ++ e
      | Except.ok s => s

/-- Translation of summarize_logic: the empty-issues rejection, client
resolution through the global cache, the requested-provider switch,
model defaulting, MockIssue construction, the optional individual
summaries, and the query-directed versus standard collection summary
selected by Python truthiness of the query string.  Returns the
response dict, the HTTP status, and the cache as left by
get_llm_client. -/
def summarize_logic (env : Env) (oracle : LLMOracle) (st : LLMCache)
    (req : SummarizeRequest) : (ApiResponse × Nat) × LLMCache :=
  if req.issues.isEmpty then
    (({ error := some "No issues provided for summarization", success := some false }, 400), st)
  else
    let (pair0, st1) := get_llm_client env st
    match pair0 with
    | none =>
      (({ error := some "No AI provider available. Set GROQ_API_KEY or OPENAI_API_KEY"
          success := some false }, 400), st1)
    | some (c0, p0) =>
      let (llm_client, current_provider) := resolve_provider env c0 p0 req.provider
      let model := orDefault req.model (get_default_model current_provider)
      let mock_issues := req.issues.map mkMockIssue
      let individual :=
        if req.type_of_summary = "individual" then
          some (mock_issues.map (fun i =>
            { issue_id := i.iid, title := i.title
              summary := summarize_issue_with_llm oracle (duckOfMock i) llm_client
                current_provider (some model) }))
        else none
      let collection_summary :=
        if req.query ≠ "" then
          query_summary oracle mock_issues llm_client model req.query
        else
          summarize_issues_collection_with_llm oracle (mock_issues.map duckOfMock)
            llm_client current_provider (some model)
      (({ success := some true, provider := some current_provider, model := some model
          query := some req.query, individual_summaries := individual
          collection_summary := some collection_summary }, 200), st1)

/-! ## app.py: fetch_issues_logic and fetch_and_summarize -/

/-- Request body of the fetch and combined endpoints, with the defaults
of the data.get calls applied; none is an absent or null key. -/
structure RequestData where
  project_url : Option String
  username : Option String
  user : Option String
  access_token : Option String
  assignee_only : Bool
  author_only : Bool
  summarize : Bool
  query : String
  summary_type : String
  provider : String
  model : Option String

/-- Translation of fetch_issues_logic: field validation with Python
truthiness and the username-or-user fallback, relation flags derived by
negating the only-flags, the fetch call (without an LLM client), and the
serialization of each issue to a plain dict.  The serialized dict reads
exactly the fields of Issue and drops the attached comments, so it is
the base issue record. -/
def fetch_issues_logic (tr : Tracker) (data : RequestData) : ApiResponse × Nat :=
  let project_url := data.project_url
  let username := pyOrStr data.username data.user
  if !strTruthy project_url || !strTruthy username then
    ({ error := some "Missing required fields: project_url and username"
       success := some false }, 400)
  else
    let fetch_assignee := !data.author_only
    let fetch_author := !data.assignee_only
    let (issues, _log) :=
      fetch_issues_by_username tr (project_url.getD "") (username.getD "")
        fetch_assignee fetch_author none
    let issues_data := issues.map FetchedIssue.base
    ({ success := some true, issues := some issues_data
       count := some issues_data.length
       project_url := project_url, username := username }, 200)

/-- Serialized issue dict as it reaches summarize_logic through the
issues field of a combined request: every serialized key present, the
comments key absent (the serialization drops attached threads). -/
def issueDictOfIssue (i : Issue) : IssueDict :=
  { iid := some i.iid, id := some i.id, title := some i.title
    state := some i.state, created_at := some i.created_at
    description := i.description, author := some i.author, comments := none }

/-- Translation of the fetch_and_summarize handler body: short-circuit
to the fetch result on a non-200 status or falsy success flag; when
summarization is requested and issues are nonempty, run summarize_logic
on the serialized issues and merge its dict into the fetch dict only on
a 200 status, returning the fetch dict untouched otherwise.  The except
branch that would set summary_error fires only if summarize_logic
itself raises, which the embedded summarize_logic, being a total
function, never does (in the source it is unreachable for the
well-formed dicts produced by fetch_issues_logic). -/
def fetch_and_summarize (tr : Tracker) (env : Env) (oracle : LLMOracle)
    (st : LLMCache) (data : RequestData) : (ApiResponse × Nat) × LLMCache :=
  let (fetch_data, fetch_status) := fetch_issues_logic tr data
  if fetch_status ≠ 200 || fetch_data.success ≠ some true then
    ((fetch_data, fetch_status), st)
  else
    let issues := fetch_data.issues.getD []
    if data.summarize && !issues.isEmpty then
      let sreq : SummarizeRequest :=
        { issues := issues.map issueDictOfIssue, query := data.query
          type_of_summary := data.summary_type, provider := data.provider
          model := data.model }
      let ((summary_data, summary_status), st2) := summarize_logic env oracle st sreq
      if summary_status = 200 then ((dictUpdate fetch_data summary_data, 200), st2)
      else ((fetch_data, 200), st2)
    else ((fetch_data, 200), st)

/-! ## Shared lemmas -/

/-- attach_comments leaves every issue field untouched. -/
theorem attach_comments_base (tr : Tracker) (csum : Option (Comment → String)) (i : Issue) :
    (attach_comments tr csum i).base = i := by
  unfold attach_comments
  cases tr.listNotes i <;> rfl

/-- Evaluation of the fetch on the successful two-relation path: the
result maps attach_comments over the merge, and the call log is the
project lookup, the two listings, and one notes call per merged
issue. -/
theorem fetch_ok_eq (tr : Tracker) (url user : String) (csum : Option (Comment → String))
    (A B : List Issue) (loc : ProjectLocator)
    (hurl : parseProjectUrl url = some loc)
    (hpg : tr.projectGet = Except.ok ())
    (hA : tr.listAssignee = Except.ok A)
    (hB : tr.listAuthor = Except.ok B) :
    fetch_issues_by_username tr url user true true csum
      = ((merge_issues A B).map (attach_comments tr csum),
         [ApiCall.projectGet, ApiCall.listAssignee, ApiCall.listAuthor]
           ++ (merge_issues A B).map (fun i => ApiCall.listNotes i.iid)) := by
  unfold fetch_issues_by_username
  rw [hurl, hpg]
  simp only [if_true, hA, hB]
  rfl

/-- The merged iid list is duplicate-free whenever each input list is. -/
theorem merge_issues_nodup (A B : List Issue)
    (hA : (A.map Issue.iid).Nodup) (hB : (B.map Issue.iid).Nodup) :
    ((merge_issues A B).map Issue.iid).Nodup := by
  unfold merge_issues
  rw [List.map_append]
  refine List.nodup_append.2 ⟨hA, ?_, ?_⟩
  · exact hB.sublist ((List.filter_sublist B).map Issue.iid)
  · intro x hx hy
    rcases List.mem_map.1 hy with ⟨b, hbmem, rfl⟩
    rcases List.mem_filter.1 hbmem with ⟨_, hp⟩
    rw [Bool.not_eq_true'] at hp
    have htrue : (A.map Issue.iid).contains b.iid = true := List.elem_eq_true_of_mem hx
    rw [htrue] at hp
    exact absurd hp (by simp)

/-- Every iid present in either input is present in the merge. -/
theorem merge_issues_covers (A B : List Issue) (i : Issue) (h : i ∈ A ∨ i ∈ B) :
    ∃ j, j ∈ merge_issues A B ∧ j.iid = i.iid := by
  unfold merge_issues
  rcases h with h | h
  · exact ⟨i, List.mem_append_left _ h, rfl⟩
  · by_cases hc : (A.map Issue.iid).contains i.iid = true
    · rcases List.mem_map.1 (List.mem_of_elem_eq_true hc) with ⟨a, ha, haiid⟩
      exact ⟨a, List.mem_append_left _ ha, haiid⟩
    · refine ⟨i, List.mem_append_right _ ?_, rfl⟩
      have hfalse : (A.map Issue.iid).contains i.iid = false := by
        cases hco : (A.map Issue.iid).contains i.iid
        · rfl
        · exact absurd hco hc
      exact List.mem_filter.2 ⟨h, by rw [Bool.not_eq_true', hfalse]⟩

/-! ## Claim C1: aggregator merge -/

/-- C1 (amended): for relation result sets whose iids are pairwise
distinct within each set — the invariant the tracker guarantees per
query — the merged result of fetch_issues_by_username is the assignee
set verbatim followed by the author issues whose iid is not already in
the assignee set, in author order; its length is bounded by the sum of
the input lengths, it carries no duplicate iid, and every iid of either
input appears in it. -/
theorem C1_aggregation (tr : Tracker) (url user : String) (csum : Option (Comment → String))
    (A B : List Issue) (loc : ProjectLocator)
    (hurl : parseProjectUrl url = some loc)
    (hpg : tr.projectGet = Except.ok ())
    (hA : tr.listAssignee = Except.ok A)
    (hB : tr.listAuthor = Except.ok B)
    (hAn : (A.map Issue.iid).Nodup)
    (hBn : (B.map Issue.iid).Nodup) :
    (fetch_issues_by_username tr url user true true csum).1.map FetchedIssue.base
        = merge_issues A B
    ∧ merge_issues A B = A ++ B.filter (fun i => !(A.map Issue.iid).contains i.iid)
    ∧ (merge_issues A B).length ≤ A.length + B.length
    ∧ ((merge_issues A B).map Issue.iid).Nodup
    ∧ (∀ i, i ∈ A ∨ i ∈ B → ∃ j, j ∈ merge_issues A B ∧ j.iid = i.iid) := by
  refine ⟨?_, rfl, ?_, merge_issues_nodup A B hAn hBn, merge_issues_covers A B⟩
  · rw [fetch_ok_eq tr url user csum A B loc hurl hpg hA hB]
    simp only [List.map_map]
    have hfun : (FetchedIssue.base ∘ attach_comments tr csum) = id :=
      funext (fun i => attach_comments_base tr csum i)
    rw [hfun, List.map_id]
  · unfold merge_issues
    simp only [List.length_append]
    exact Nat.add_le_add_left (List.length_filter_le _ _) A.length

/-- Sample issue used to build concrete scenarios. -/
def issueBase : Issue :=
  { iid := 1, id := 10, title := "a", state := "opened"
    created_at := "2024-01-01T00:00:00Z", updated_at := "2024-01-02T00:00:00Z"
    closed_at := none, author := { username := "alice", name := "Alice" }
    assignee := none, description := none
    web_url := "https://gitlab.com/g/p/-/issues/1" }

/-- Sample issue with a chosen iid and title. -/
def wIssue (n : Nat) (t : String) : Issue := { issueBase with iid := n, id := n, title := t }

/-- Tracker whose assignee-relation set itself carries a duplicated
iid (two distinct issue payloads under iid 1). -/
def trC1 : Tracker :=
  { projectGet := Except.ok (), listAssignee := Except.ok [issueBase, { issueBase with id := 11, title := "b" }]
    listAuthor := Except.ok [], listNotes := fun _ => Except.ok [] }

/-- C1 counterexample: with an assignee-relation sequence containing
two issues of the same iid, the output of fetch_issues_by_username
contains two issues with the same iid, refuting the no-duplicate
invariant as universally stated. -/
theorem C1_counterexample :
    ¬ (((fetch_issues_by_username trC1 "https://gitlab.com/g/p" "alice" true true none).1.map
          (fun f => f.base.iid)).Nodup) := by decide

/-- Tracker realizing the scenario of the spec: assignee set iids 1 and
2, author set iids 2 and 3. -/
def trC1w : Tracker :=
  { projectGet := Except.ok ()
    listAssignee := Except.ok [wIssue 1 "one", wIssue 2 "two"]
    listAuthor := Except.ok [wIssue 2 "two-b", wIssue 3 "three"]
    listNotes := fun _ => Except.ok [] }

/-- Witness for C1 at the scenario input: the merge is [iid 1, iid 2,
iid 3] and the amended claim holds there. -/
theorem C1_witness :
    merge_issues [wIssue 1 "one", wIssue 2 "two"] [wIssue 2 "two-b", wIssue 3 "three"]
        = [wIssue 1 "one", wIssue 2 "two", wIssue 3 "three"]
    ∧ ((fetch_issues_by_username trC1w "https://gitlab.com/g/p" "alice" true true none).1.map
          FetchedIssue.base
        = merge_issues [wIssue 1 "one", wIssue 2 "two"] [wIssue 2 "two-b", wIssue 3 "three"]
      ∧ merge_issues [wIssue 1 "one", wIssue 2 "two"] [wIssue 2 "two-b", wIssue 3 "three"]
          = [wIssue 1 "one", wIssue 2 "two"]
            ++ [wIssue 2 "two-b", wIssue 3 "three"].filter
                (fun i => !([wIssue 1 "one", wIssue 2 "two"].map Issue.iid).contains i.iid)
      ∧ (merge_issues [wIssue 1 "one", wIssue 2 "two"] [wIssue 2 "two-b", wIssue 3 "three"]).length
          ≤ [wIssue 1 "one", wIssue 2 "two"].length + [wIssue 2 "two-b", wIssue 3 "three"].length
      ∧ ((merge_issues [wIssue 1 "one", wIssue 2 "two"] [wIssue 2 "two-b", wIssue 3 "three"]).map
            Issue.iid).Nodup
      ∧ (∀ i, i ∈ [wIssue 1 "one", wIssue 2 "two"] ∨ i ∈ [wIssue 2 "two-b", wIssue 3 "three"] →
          ∃ j, j ∈ merge_issues [wIssue 1 "one", wIssue 2 "two"] [wIssue 2 "two-b", wIssue 3 "three"]
            ∧ j.iid = i.iid)) :=
  ⟨by decide,
   C1_aggregation trC1w "https://gitlab.com/g/p" "alice" none
     [wIssue 1 "one", wIssue 2 "two"] [wIssue 2 "two-b", wIssue 3 "three"]
     (ProjectLocator.path "g/p") (by decide) rfl rfl rfl (by decide) (by decide)⟩

/-! ## Claim C2: upstream fetch errors -/

/-- C2 (amended): on any upstream tracker error — project lookup,
assignee listing or author listing raising — fetch_issues_by_username
catches the error, prints a diagnostic, and returns the empty list, the
same value a successful fetch with no issues returns; callers cannot
distinguish the two from the return value. -/
theorem C2_upstream_error_returns_empty (tr : Tracker) (url user : String)
    (assignee author : Bool) (csum : Option (Comment → String)) (loc : ProjectLocator)
    (hurl : parseProjectUrl url = some loc) :
    (∀ e, tr.projectGet = Except.error e →
      (fetch_issues_by_username tr url user assignee author csum).1 = [])
    ∧ (∀ e, tr.projectGet = Except.ok () → assignee = true →
        tr.listAssignee = Except.error e →
        (fetch_issues_by_username tr url user assignee author csum).1 = [])
    ∧ (∀ e A, tr.projectGet = Except.ok () → author = true →
        (assignee = true → tr.listAssignee = Except.ok A) →
        tr.listAuthor = Except.error e →
        (fetch_issues_by_username tr url user assignee author csum).1 = []) := by
  refine ⟨?_, ?_, ?_⟩
  · intro e hpg
    unfold fetch_issues_by_username
    rw [hurl, hpg]
  · intro e hpg hassignee hlist
    subst hassignee
    unfold fetch_issues_by_username
    rw [hurl, hpg]
    simp [hlist]
  · intro e A hpg hauthor hassigneeok hlist
    subst hauthor
    unfold fetch_issues_by_username
    rw [hurl, hpg]
    cases hassignee : assignee with
    | true => simp [hassigneeok hassignee, hlist]
    | false => simp [hlist]

/-- Tracker whose assignee listing raises an authorization error. -/
def trC2err : Tracker :=
  { projectGet := Except.ok ()
    listAssignee := Except.error "401 Unauthorized"
    listAuthor := Except.ok [], listNotes := fun _ => Except.ok [] }

/-- Tracker that succeeds with no issues at all. -/
def trC2empty : Tracker :=
  { projectGet := Except.ok (), listAssignee := Except.ok []
    listAuthor := Except.ok [], listNotes := fun _ => Except.ok [] }

/-- C2 counterexample: with the assignee listing raising, the fetch
returns the empty list — the same value as a successful fetch of a
project with no issues — so no explicit failure distinguishable from a
successful empty result is returned. -/
theorem C2_counterexample :
    (fetch_issues_by_username trC2err "https://gitlab.com/g/p" "alice" true true none).1 = []
    ∧ (fetch_issues_by_username trC2empty "https://gitlab.com/g/p" "alice" true true none).1 = []
    ∧ (fetch_issues_by_username trC2err "https://gitlab.com/g/p" "alice" true true none).1
        = (fetch_issues_by_username trC2empty "https://gitlab.com/g/p" "alice" true true none).1 := by
  refine ⟨by decide, by decide, by decide⟩

/-- Witness for C2 at a concrete erroring tracker. -/
theorem C2_witness :
    (fetch_issues_by_username trC2err "https://gitlab.com/g/p" "alice" true true none).1 = [] :=
  (C2_upstream_error_returns_empty trC2err "https://gitlab.com/g/p" "alice" true true none
    (ProjectLocator.path "g/p") (by decide)).2.1 "401 Unauthorized" rfl rfl rfl

/-! ## Claim C3: per-issue comment thread failures -/

/-- C3 (confirmed): in the successful fetch, every merged issue is
processed by the independent per-issue comments step: an issue whose
notes call raises gets the single thread-level error marker while all
its other fields are retained, and an issue whose notes call succeeds
gets its fully populated thread; the outcome for each issue is a
function of that issue alone, so one failure never aborts the rest. -/
theorem C3_thread_error_isolation (tr : Tracker) (url user : String)
    (csum : Option (Comment → String)) (A B : List Issue) (loc : ProjectLocator)
    (hurl : parseProjectUrl url = some loc)
    (hpg : tr.projectGet = Except.ok ())
    (hA : tr.listAssignee = Except.ok A)
    (hB : tr.listAuthor = Except.ok B) :
    (fetch_issues_by_username tr url user true true csum).1
        = (merge_issues A B).map (attach_comments tr csum)
    ∧ (∀ i e, tr.listNotes i = Except.error e →
        attach_comments tr csum i
          = { base := i
              comments := [CommentEntry.err ("Failed to fetch or summarize comments: " ++ e)] })
    ∧ (∀ i notes, tr.listNotes i = Except.ok notes →
        attach_comments tr csum i
          = { base := i, comments := notes.map (mkCommentEntry csum) }) := by
  refine ⟨?_, ?_, ?_⟩
  · rw [fetch_ok_eq tr url user csum A B loc hurl hpg hA hB]
  · intro i e h
    unfold attach_comments
    rw [h]
  · intro i notes h
    unfold attach_comments
    rw [h]

/-- Tracker for the C3 scenario: issues iid 4, 5, 6; the notes call for
iid 5 raises a transport error, the others return one note each. -/
def trC3 : Tracker :=
  { projectGet := Except.ok ()
    listAssignee := Except.ok [wIssue 4 "four", wIssue 5 "five", wIssue 6 "six"]
    listAuthor := Except.ok []
    listNotes := fun i =>
      if i.iid = 5 then Except.error "connection reset"
      else Except.ok [{ id := 100 + i.iid, author_username := "bob"
                        body := "looks good", created_at := "2024-02-01T00:00:00Z" }] }

/-- Witness for C3 at the scenario: issue 5 carries the error marker
with its fields intact while issues 4 and 6 keep their full threads. -/
theorem C3_witness :
    attach_comments trC3 none (wIssue 5 "five")
        = { base := wIssue 5 "five"
            comments := [CommentEntry.err
              "Failed to fetch or summarize comments: connection reset"] }
    ∧ attach_comments trC3 none (wIssue 4 "four")
        = { base := wIssue 4 "four"
            comments := [CommentEntry.note
              { id := 104, author := "bob", body := "looks good"
                created_at := "2024-02-01T00:00:00Z", llm_summary := none }] } := by
  have h := C3_thread_error_isolation trC3 "https://gitlab.com/g/p" "alice" none
    [wIssue 4 "four", wIssue 5 "five", wIssue 6 "six"] [] (ProjectLocator.path "g/p")
    (by decide) rfl rfl rfl
  exact ⟨h.2.1 (wIssue 5 "five") "connection reset" rfl,
         h.2.2 (wIssue 4 "four")
           [{ id := 104, author_username := "bob", body := "looks good"
              created_at := "2024-02-01T00:00:00Z" }] rfl⟩

/-! ## Claim C8: fetch with both relation booleans false -/

/-- C8 (amended): with both relation booleans false the fetch performs
no issue-listing and no notes network call, but it does still perform
the project lookup over the network before returning; the result is the
empty list, which fetch_issues_logic reports as a success with count 0,
not as an error. -/
theorem C8_no_relations (tr : Tracker) (url user : String)
    (csum : Option (Comment → String)) (loc : ProjectLocator)
    (hurl : parseProjectUrl url = some loc)
    (hpg : tr.projectGet = Except.ok ()) :
    fetch_issues_by_username tr url user false false csum = ([], [ApiCall.projectGet])
    ∧ (∀ data : RequestData, data.assignee_only = true → data.author_only = true →
        data.project_url = some url → url ≠ "" →
        strTruthy (pyOrStr data.username data.user) = true →
        fetch_issues_logic tr data
          = ({ success := some true, issues := some [], count := some 0
               project_url := some url, username := pyOrStr data.username data.user }, 200)) := by
  constructor
  · unfold fetch_issues_by_username
    rw [hurl, hpg]
    rfl
  · intro data hao hau hproj hurlne husr
    have hpt : strTruthy (some url) = true := by simp [strTruthy, hurlne]
    have hfetch : ∀ u2 : String, fetch_issues_by_username tr url u2 false false none
        = ([], [ApiCall.projectGet]) := by
      intro u2
      unfold fetch_issues_by_username
      rw [hurl, hpg]
      rfl
    unfold fetch_issues_logic
    rw [hproj]
    simp [hpt, husr, hao, hau, hfetch, Option.getD]

/-- Tracker recording that the project lookup happens. -/
def trC8 : Tracker :=
  { projectGet := Except.ok (), listAssignee := Except.ok [wIssue 1 "one"]
    listAuthor := Except.ok [wIssue 2 "two"], listNotes := fun _ => Except.ok [] }

/-- C8 counterexample: with both booleans false the call log is not
empty — the project lookup network call is still performed, so the
fetch is not free of network activity. -/
theorem C8_counterexample :
    (fetch_issues_by_username trC8 "https://gitlab.com/g/p" "alice" false false none).2
        = [ApiCall.projectGet]
    ∧ (fetch_issues_by_username trC8 "https://gitlab.com/g/p" "alice" false false none).2 ≠ [] := by
  refine ⟨by decide, by decide⟩

/-- Witness for C8 at a concrete tracker and request. -/
theorem C8_witness :
    fetch_issues_by_username trC8 "https://gitlab.com/g/p" "alice" false false none
        = ([], [ApiCall.projectGet]) :=
  (C8_no_relations trC8 "https://gitlab.com/g/p" "alice" none (ProjectLocator.path "g/p")
    (by decide) rfl).1

/-! ## Claim C5: collection overview caps -/

/-- Concatenated overview entries of a list of issues. -/
def entries_text (l : List DuckIssue) : String :=
  l.foldr (fun i acc => overview_entry i ++ acc) ""

/-- The overview loop accumulates exactly the concatenation of the
per-issue entries after the initial header. -/
theorem foldl_entries (l : List DuckIssue) (init : String) :
    l.foldl (fun acc i => acc ++ overview_entry i) init = init ++ entries_text l := by
  induction l generalizing init with
  | nil => simp [entries_text, String.append_empty]
  | cons x xs ih => simp [entries_text, List.foldl_cons, ih, String.append_assoc]

/-- C5 (confirmed): the collection overview is the total-count header,
the entries of at most the first 10 issues in order, and the remainder
count exactly when more than 10 issues exist; a description preview is
the description itself at up to 100 characters and the first 100
characters plus the 3-character ellipsis beyond that, so previews never
exceed 103 characters. -/
theorem C5_overview_caps (issues : List DuckIssue) :
    issues_overview issues
        = overview_header issues ++ entries_text (issues.take 10)
          ++ (if 10 < issues.length then
                "... and " ++ toString (issues.length - 10) ++ " more issues\n" else "")
    ∧ (issues.take 10).length ≤ 10
    ∧ (∀ d : String, pyLen d ≤ 100 → desc_preview d = d)
    ∧ (∀ d : String, 100 < pyLen d →
        desc_preview d = pySlice d 100 ++ "..."
        ∧ pyLen (pySlice d 100) = 100
        ∧ pyLen (desc_preview d) = 103)
    ∧ (∀ d : String, pyLen (desc_preview d) ≤ 103) := by
  have hslice : ∀ d : String, 100 < pyLen d → pyLen (pySlice d 100) = 100 := by
    intro d h
    show (d.data.take 100).length = 100
    rw [List.length_take]
    exact Nat.min_eq_left (Nat.le_of_lt h)
  have hlong : ∀ d : String, 100 < pyLen d → pyLen (desc_preview d) = 103 := by
    intro d h
    unfold desc_preview
    rw [if_pos h]
    show ((pySlice d 100).data ++ "...".data).length = 103
    rw [List.length_append]
    have := hslice d h
    unfold pyLen at this
    rw [this]
    rfl
  refine ⟨?_, ?_, ?_, ?_, ?_⟩
  · unfold issues_overview
    rw [foldl_entries]
    by_cases h : 10 < issues.length
    · rw [if_pos h, if_pos h]
      simp [String.append_assoc]
    · rw [if_neg h, if_neg h, String.append_empty]
  · rw [List.length_take]
    exact Nat.min_le_left 10 issues.length
  · intro d h
    unfold desc_preview
    rw [if_neg (by omega)]
  · intro d h
    exact ⟨by unfold desc_preview; rw [if_pos h], hslice d h, hlong d h⟩
  · intro d
    by_cases h : 100 < pyLen d
    · rw [hlong d h]
    · unfold desc_preview
      rw [if_neg h]
      omega

/-- Concrete 101-character description. -/
def dLong : String := String.mk (List.replicate 101 (Char.ofNat 97))

/-- Duck issue with a long description. -/
def duckLong : DuckIssue :=
  { iid_opt := some 1, title := "t", state := "opened"
    author := { username := "alice", name := "Alice" }
    created_at := "2024-01-01T00:00:00Z", description := some dLong, comments := none }

/-- Witness for C5 at a concrete collection of 11 issues and a
101-character description: the preview gains the ellipsis and measures
103 characters, and at most 10 entries render. -/
theorem C5_witness :
    100 < pyLen dLong
    ∧ ((List.replicate 11 duckLong).take 10).length ≤ 10
    ∧ desc_preview dLong = pySlice dLong 100 ++ "..."
    ∧ pyLen (desc_preview dLong) = 103 :=
  ⟨by decide,
   (C5_overview_caps (List.replicate 11 duckLong)).2.1,
   ((C5_overview_caps (List.replicate 11 duckLong)).2.2.2.1 dLong (by decide)).1,
   ((C5_overview_caps (List.replicate 11 duckLong)).2.2.2.1 dLong (by decide)).2.2⟩

/-! ## Claim C4: provider resolution -/

/-- C4 (confirmed for the two documented providers): a fresh resolution
prefers Groq when its credential is present, falls back to OpenAI, and
reports the unavailable failure when neither credential exists; a
request for a provider different from the cached one constructs and
switches to a new client exactly when the requested credential is
truthy, keeping the cached client and identity otherwise; the resolved
identity always equals the tag of the client that is used, and the
provider field of the summarize result is the resolved identity. -/
theorem C4_provider_resolution (env : Env) :
    (strTruthy env.groq_api_key = true →
      get_llm_client env none
        = (some (Client.mk "groq", "groq"), some (Client.mk "groq", "groq")))
    ∧ (strTruthy env.groq_api_key = false → strTruthy env.openai_api_key = true →
      get_llm_client env none
        = (some (Client.mk "openai", "openai"), some (Client.mk "openai", "openai")))
    ∧ (strTruthy env.groq_api_key = false → strTruthy env.openai_api_key = false →
      ∀ (oracle : LLMOracle) (req : SummarizeRequest), req.issues.isEmpty = false →
        summarize_logic env oracle none req
          = (({ error := some "No AI provider available. Set GROQ_API_KEY or OPENAI_API_KEY"
                success := some false }, 400), none))
    ∧ (∀ (c : Client) (p requested : String),
        requested = "groq" ∨ requested = "openai" →
        requested ≠ p →
        ((strTruthy (if requested = "groq" then env.groq_api_key else env.openai_api_key) = true →
            resolve_provider env c p requested = (some (Client.mk requested), requested))
         ∧ (strTruthy (if requested = "groq" then env.groq_api_key else env.openai_api_key) = false →
            resolve_provider env c p requested = (some c, p))))
    ∧ (∀ (c : Client) (p requested : String) (c2 : Client) (p2 : String),
        requested = "groq" ∨ requested = "openai" → c.tag = p →
        resolve_provider env c p requested = (some c2, p2) → c2.tag = p2)
    ∧ (∀ (oracle : LLMOracle) (st : LLMCache) (req : SummarizeRequest)
         (c0 : Client) (p0 : String) (st1 : LLMCache),
        req.issues.isEmpty = false →
        get_llm_client env st = (some (c0, p0), st1) →
        (summarize_logic env oracle st req).1.1.provider
          = some (resolve_provider env c0 p0 req.provider).2) := by
  have hlg : pyLower "groq" = "groq" := by decide
  have hlo : pyLower "openai" = "openai" := by decide
  have hlno : ¬ pyLower "openai" = "groq" := by decide
  have hneq : ¬ (("openai" : String) = "groq") := by decide
  refine ⟨?_, ?_, ?_, ?_, ?_, ?_⟩
  · intro h
    unfold get_llm_client setup_llm_client
    simp [h, hlg, pyOrStr]
  · intro hg ho
    unfold get_llm_client setup_llm_client
    simp [hg, ho, hlo, hlno, pyOrStr]
  · intro hg ho oracle req hne
    unfold summarize_logic
    rw [hne]
    unfold get_llm_client
    simp [hg, ho]
  · intro c p requested hval hne
    constructor
    · intro htruthy
      unfold resolve_provider
      rw [if_pos hne]
      rcases hval with rfl | rfl
      · rw [if_pos rfl] at htruthy ⊢
        rw [if_pos htruthy]
        unfold setup_llm_client
        simp [hlg, pyOrStr, htruthy]
      · rw [if_neg hneq] at htruthy ⊢
        rw [if_pos htruthy]
        unfold setup_llm_client
        simp [hlo, hlno, pyOrStr, htruthy]
    · intro hfalsy
      unfold resolve_provider
      rw [if_pos hne]
      rcases hval with rfl | rfl
      · rw [if_pos rfl] at hfalsy ⊢
        rw [if_neg (by rw [hfalsy]; exact Bool.false_ne_true)]
      · rw [if_neg hneq] at hfalsy ⊢
        rw [if_neg (by rw [hfalsy]; exact Bool.false_ne_true)]
  · intro c p requested c2 p2 hval htag hres
    by_cases hne : requested ≠ p
    · rcases hval with rfl | rfl
      · by_cases hk : strTruthy env.groq_api_key = true
        · unfold resolve_provider at hres
          rw [if_pos hne, if_pos rfl, if_pos hk] at hres
          unfold setup_llm_client at hres
          simp [hlg, pyOrStr, hk] at hres
          rw [← hres.1, ← hres.2]
        · have hk2 : strTruthy env.groq_api_key = false := by
            cases hb : strTruthy env.groq_api_key
            · rfl
            · exact absurd hb hk
          unfold resolve_provider at hres
          rw [if_pos hne, if_pos rfl, if_neg (by rw [hk2]; exact Bool.false_ne_true)] at hres
          injection hres with h1 h2
          injection h1 with h1
          rw [← h1, ← h2]
          exact htag
      · by_cases hk : strTruthy env.openai_api_key = true
        · unfold resolve_provider at hres
          rw [if_pos hne, if_neg hneq, if_pos hk] at hres
          unfold setup_llm_client at hres
          simp [hlo, hlno, pyOrStr, hk] at hres
          rw [← hres.1, ← hres.2]
        · have hk2 : strTruthy env.openai_api_key = false := by
            cases hb : strTruthy env.openai_api_key
            · rfl
            · exact absurd hb hk
          unfold resolve_provider at hres
          rw [if_pos hne, if_neg hneq, if_neg (by rw [hk2]; exact Bool.false_ne_true)] at hres
          injection hres with h1 h2
          injection h1 with h1
          rw [← h1, ← h2]
          exact htag
    · unfold resolve_provider at hres
      rw [if_neg hne] at hres
      injection hres with h1 h2
      injection h1 with h1
      rw [← h1, ← h2]
      exact htag
  · intro oracle st req c0 p0 st1 hne hget
    unfold summarize_logic
    rw [hne, hget]
    rcases hres : resolve_provider env c0 p0 req.provider with ⟨lc, cp⟩
    simp [hres]

/-- Environment with both credentials. -/
def envBoth : Env :=
  { groq_api_key := some "gk", openai_api_key := some "ok", gitlab_access_token := none }

/-- Environment with only the OpenAI credential. -/
def envOpenaiOnly : Env :=
  { groq_api_key := none, openai_api_key := some "ok", gitlab_access_token := none }

/-- Witness for C4: fresh resolution picks Groq when its key is
present, and an OpenAI request against a cached Groq client switches
when the OpenAI key is present. -/
theorem C4_witness :
    get_llm_client envBoth none
        = (some (Client.mk "groq", "groq"), some (Client.mk "groq", "groq"))
    ∧ resolve_provider envOpenaiOnly (Client.mk "groq") "groq" "openai"
        = (some (Client.mk "openai"), "openai") :=
  ⟨(C4_provider_resolution envBoth).1 (by decide),
   ((C4_provider_resolution envOpenaiOnly).2.2.2.1 (Client.mk "groq") "groq" "openai"
      (Or.inr rfl) (by decide)).1 (by decide)⟩

/-! ## Claim C7: query-directed versus standard summary path -/

/-- C7 (amended): the standard collection-summary path runs exactly
when the query string is empty; any non-empty query — including a
whitespace-only one, which is truthy in Python — takes the
query-directed path with the query text rendered into the prompt. -/
theorem C7_query_path (env : Env) (oracle : LLMOracle) (st : LLMCache)
    (req : SummarizeRequest) (c0 : Client) (p0 : String) (st1 : LLMCache)
    (hne : req.issues.isEmpty = false)
    (hget : get_llm_client env st = (some (c0, p0), st1)) :
    (req.query = "" →
      (summarize_logic env oracle st req).1.1.collection_summary
        = some (summarize_issues_collection_with_llm oracle
            ((req.issues.map mkMockIssue).map duckOfMock)
            (resolve_provider env c0 p0 req.provider).1
            (resolve_provider env c0 p0 req.provider).2
            (some (orDefault req.model
              (get_default_model (resolve_provider env c0 p0 req.provider).2)))))
    ∧ (req.query ≠ "" →
      (summarize_logic env oracle st req).1.1.collection_summary
        = some (query_summary oracle (req.issues.map mkMockIssue)
            (resolve_provider env c0 p0 req.provider).1
            (orDefault req.model
              (get_default_model (resolve_provider env c0 p0 req.provider).2))
            req.query)) := by
  constructor
  · intro hq
    unfold summarize_logic
    rw [hne, hget]
    rcases hres : resolve_provider env c0 p0 req.provider with ⟨lc, cp⟩
    simp [hres, hq]
  · intro hq
    unfold summarize_logic
    rw [hne, hget]
    rcases hres : resolve_provider env c0 p0 req.provider with ⟨lc, cp⟩
    simp [hres, hq]

/-- Oracle that returns the user message of the request as the
completion content, exposing which prompt was sent. -/
def echoOracle : LLMOracle :=
  fun q => LLMOutcome.response { choices := [{ content := some q.user_msg }] }

/-- Concrete serialized issue dict. -/
def dictOne : IssueDict :=
  { iid := some 1, id := some 1, title := some "one", state := some "opened"
    created_at := some "2024-01-01T00:00:00Z", description := none
    author := some { username := "alice", name := "Alice" }, comments := none }

/-- Summarize request with a whitespace-only query. -/
def reqWhitespace : SummarizeRequest :=
  { issues := [dictOne], query := " ", type_of_summary := "collection"
    provider := "groq", model := none }

/-- Summarize request with an empty query. -/
def reqEmptyQuery : SummarizeRequest :=
  { issues := [dictOne], query := "", type_of_summary := "collection"
    provider := "groq", model := none }

/-- C7 counterexample: a whitespace-only query does not fall back to
the standard collection-summary path — the result differs from the
empty-query result, and the prompt that was sent begins with the
query-directed text, so a query prefix is rendered. -/
theorem C7_counterexample :
    (summarize_logic envBoth echoOracle none reqWhitespace).1.1.collection_summary
        ≠ (summarize_logic envBoth echoOracle none reqEmptyQuery).1.1.collection_summary
    ∧ pyStartsWith
        (((summarize_logic envBoth echoOracle none reqWhitespace).1.1.collection_summary).getD "")
        "Based on the users query" = true := by
  refine ⟨by decide, by decide⟩

/-- Witness for C7: with an empty query the standard collection path
runs at a concrete environment, oracle and request. -/
theorem C7_witness :
    (summarize_logic envBoth echoOracle none reqEmptyQuery).1.1.collection_summary
        = some (summarize_issues_collection_with_llm echoOracle
            ((reqEmptyQuery.issues.map mkMockIssue).map duckOfMock)
            (resolve_provider envBoth (Client.mk "groq") "groq" reqEmptyQuery.provider).1
            (resolve_provider envBoth (Client.mk "groq") "groq" reqEmptyQuery.provider).2
            (some (orDefault reqEmptyQuery.model
              (get_default_model
                (resolve_provider envBoth (Client.mk "groq") "groq" reqEmptyQuery.provider).2)))) :=
  (C7_query_path envBoth echoOracle none reqEmptyQuery (Client.mk "groq") "groq"
    (some (Client.mk "groq", "groq")) (by decide) (by decide)).1 rfl

/-! ## Claim C6: summarization error conversion -/

/-- C6 (amended): every exception raised by the provider call, every
response with no choice, and every response whose content is null are
converted into a result string embedding the underlying cause, at both
the per-issue summarizer and the query-directed call site, and the
individual-summaries loop computes each entry from its own issue alone,
so one failed summary never aborts the others.  A response whose
content is a present string — even the empty string — is returned
stripped as the summary, not converted to an error description. -/
theorem C6_error_conversion (oracle : LLMOracle) (issue : DuckIssue) (cl : Client)
    (provider : String) (model : Option String) (mocks : List MockIssue)
    (m q0 : String) :
    (∀ e, (∀ q, oracle q = LLMOutcome.raise e) →
      summarize_issue_with_llm oracle issue (some cl) provider model
        = "Error generating summary: " ++ e)
    ∧ ((∀ q, oracle q = LLMOutcome.response { choices := [] }) →
      summarize_issue_with_llm oracle issue (some cl) provider model
        = "Error generating summary: list index out of range")
    ∧ ((∀ q, oracle q = LLMOutcome.response { choices := [{ content := none }] }) →
      summarize_issue_with_llm oracle issue (some cl) provider model
        = "Error generating summary: NoneType object has no attribute strip")
    ∧ (∀ e, (∀ q, oracle q = LLMOutcome.raise e) →
      query_summary oracle mocks (some cl) m q0
        = "Error generating custom summary: " ++ e)
    ∧ (∀ (env : Env) (st : LLMCache) (req : SummarizeRequest)
         (c0 : Client) (p0 : String) (st1 : LLMCache),
        req.issues.isEmpty = false →
        get_llm_client env st = (some (c0, p0), st1) →
        req.type_of_summary = "individual" →
        (summarize_logic env oracle st req).1.1.individual_summaries
          = some ((req.issues.map mkMockIssue).map (fun i =>
              { issue_id := i.iid, title := i.title
                summary := summarize_issue_with_llm oracle (duckOfMock i)
                  (resolve_provider env c0 p0 req.provider).1
                  (resolve_provider env c0 p0 req.provider).2
                  (some (orDefault req.model
                    (get_default_model (resolve_provider env c0 p0 req.provider).2))) }))) := by
  refine ⟨?_, ?_, ?_, ?_, ?_⟩
  · intro e hr
    unfold summarize_issue_with_llm
    simp [hr]
  · intro hr
    unfold summarize_issue_with_llm
    simp [hr, extract_choice_content]
  · intro hr
    unfold summarize_issue_with_llm
    simp [hr, extract_choice_content]
  · intro e hr
    unfold query_summary
    simp [hr]
  · intro env st req c0 p0 st1 hne hget htype
    unfold summarize_logic
    rw [hne, hget]
    rcases hres : resolve_provider env c0 p0 req.provider with ⟨lc, cp⟩
    simp [hres, htype]

/-- Oracle raising on every call. -/
def raiseOracle : LLMOracle := fun _ => LLMOutcome.raise "boom"

/-- Oracle answering every call with a present but empty content
string. -/
def emptyContentOracle : LLMOracle :=
  fun _ => LLMOutcome.response { choices := [{ content := some "" }] }

/-- Duck view of the concrete serialized issue. -/
def duckPlain : DuckIssue := duckOfMock (mkMockIssue dictOne)

/-- C6 counterexample: a malformed response whose content is the empty
string is not converted into an error description — the summarizer
returns the empty string itself, with no error text embedded. -/
theorem C6_counterexample :
    summarize_issue_with_llm emptyContentOracle duckPlain (some (Client.mk "groq")) "groq" none
        = ""
    ∧ pyStartsWith
        (summarize_issue_with_llm emptyContentOracle duckPlain (some (Client.mk "groq")) "groq" none)
        "Error" = false := by
  refine ⟨by decide, by decide⟩

/-- Witness for C6: a raised provider error is converted to the
error-description result at a concrete oracle and issue. -/
theorem C6_witness :
    summarize_issue_with_llm raiseOracle duckPlain (some (Client.mk "groq")) "groq" none
        = "Error generating summary: boom" :=
  (C6_error_conversion raiseOracle duckPlain (Client.mk "groq") "groq" none [] "m" "q").1
    "boom" (fun _ => rfl)

/-! ## Claim C9: combined fetch-then-summarize -/

/-- summarize_logic never writes the issues key of its response dict,
so merging its dict into the fetch dict cannot overwrite the fetched
issues. -/
theorem summarize_logic_sets_no_issues (env : Env) (oracle : LLMOracle) (st : LLMCache)
    (req : SummarizeRequest) : (summarize_logic env oracle st req).1.1.issues = none := by
  unfold summarize_logic
  by_cases h : req.issues.isEmpty
  · simp [h]
  · simp only [h]
    rcases hget : get_llm_client env st with ⟨pair0, st1⟩
    rcases pair0 with _ | ⟨c0, p0⟩
    · simp [hget]
    · rcases hres : resolve_provider env c0 p0 req.provider with ⟨lc, cp⟩
      simp [hget, hres]

/-- C9 (amended): when fetching fails, the combined operation returns
the fetch failure unchanged; when fetching succeeds the fetched issues
are always returned — summarization output is merged in only when
summarization was requested, the issue list is nonempty, and
summarize_logic reports status 200, in which case the merge cannot
touch the issues; when summarize_logic reports a non-200 status (for
example the no-provider failure) its result is silently dropped and the
fetch result is returned with neither summary output nor an error
marker; summary_error is attached only if summarize_logic raises, which
the embedded total summarize_logic never does. -/
theorem C9_fetch_then_summarize (tr : Tracker) (env : Env) (oracle : LLMOracle)
    (st : LLMCache) (data : RequestData) :
    (∀ r n, fetch_issues_logic tr data = (r, n) → (n ≠ 200 ∨ r.success ≠ some true) →
      fetch_and_summarize tr env oracle st data = ((r, n), st))
    ∧ (∀ r n, fetch_issues_logic tr data = (r, n) → n = 200 → r.success = some true →
        ((fetch_and_summarize tr env oracle st data).1.1.issues = r.issues
         ∧ (data.summarize = false →
             fetch_and_summarize tr env oracle st data = ((r, 200), st))
         ∧ (∀ l, r.issues = some l → l ≠ [] → data.summarize = true →
             ∀ sd ss st2,
               summarize_logic env oracle st
                 { issues := l.map issueDictOfIssue, query := data.query
                   type_of_summary := data.summary_type, provider := data.provider
                   model := data.model } = ((sd, ss), st2) →
               (ss = 200 →
                 fetch_and_summarize tr env oracle st data = ((dictUpdate r sd, 200), st2)
                 ∧ (dictUpdate r sd).issues = r.issues)
               ∧ (ss ≠ 200 →
                 fetch_and_summarize tr env oracle st data = ((r, 200), st2))))) := by
  constructor
  · intro r n hfetch hfail
    unfold fetch_and_summarize
    rw [hfetch]
    rcases hfail with hfail | hfail
    · simp [hfail]
    · simp [hfail]
  · intro r n hfetch hn hsucc
    subst hn
    have hnotfail : (decide (200 ≠ 200) || decide (r.success ≠ some true)) = false := by
      simp [hsucc]
    refine ⟨?_, ?_, ?_⟩
    · unfold fetch_and_summarize
      rw [hfetch]
      simp only [hnotfail, Bool.false_eq_true, if_false, hsucc]
      by_cases hs : data.summarize
      · rcases hl : r.issues with _ | l
        · simp [hs, hl]
        · by_cases hle : l.isEmpty
          · simp [hs, hl, hle]
          · simp only [hs, hl, hle, Option.getD_some, Bool.and_true, Bool.true_and,
              Bool.not_false, if_true]
            rcases hsum : summarize_logic env oracle st
              { issues := l.map issueDictOfIssue, query := data.query
                type_of_summary := data.summary_type, provider := data.provider
                model := data.model } with ⟨⟨sd, ss⟩, st2⟩
            by_cases hss : ss = 200
            · have hsdiss : sd.issues = none := by
                have := summarize_logic_sets_no_issues env oracle st
                  { issues := l.map issueDictOfIssue, query := data.query
                    type_of_summary := data.summary_type, provider := data.provider
                    model := data.model }
                rw [hsum] at this
                exact this
              simp [hsum, hss, dictUpdate, hsdiss, hl]
            · simp [hsum, hss, hl]
      · simp [hs]
    · intro hs
      unfold fetch_and_summarize
      rw [hfetch]
      simp [hnotfail, hsucc, hs]
    · intro l hl hlne hs sd ss st2 hsum
      have hle : l.isEmpty = false := by
        cases l with
        | nil => exact absurd rfl hlne
        | cons x xs => rfl
      constructor
      · intro hss
        have hsdiss : sd.issues = none := by
          have := summarize_logic_sets_no_issues env oracle st
            { issues := l.map issueDictOfIssue, query := data.query
              type_of_summary := data.summary_type, provider := data.provider
              model := data.model }
          rw [hsum] at this
          exact this
        constructor
        · unfold fetch_and_summarize
          rw [hfetch]
          simp [hnotfail, hsucc, hs, hl, hle, hsum, hss]
        · simp [dictUpdate, hsdiss]
      · intro hss
        unfold fetch_and_summarize
        rw [hfetch]
        simp [hnotfail, hsucc, hs, hl, hle, hsum, hss]

/-- Environment with no provider credential at all. -/
def envNone : Env :=
  { groq_api_key := none, openai_api_key := none, gitlab_access_token := none }

/-- Tracker returning a single assigned issue. -/
def trOne : Tracker :=
  { projectGet := Except.ok (), listAssignee := Except.ok [wIssue 1 "one"]
    listAuthor := Except.ok [], listNotes := fun _ => Except.ok [] }

/-- Combined request asking for summarization. -/
def dataC9 : RequestData :=
  { project_url := some "https://gitlab.com/g/p", username := some "alice", user := none
    access_token := none, assignee_only := false, author_only := false
    summarize := true, query := "", summary_type := "collection"
    provider := "groq", model := none }

/-- C9 counterexample: fetching succeeds and summarization is
requested but no provider credential exists; summarize_logic reports a
400 failure and the combined operation returns the fetch result with
neither summarization output nor any summarization-specific error
marker attached. -/
theorem C9_counterexample :
    (fetch_and_summarize trOne envNone echoOracle none dataC9).1.1.issues
        = some [wIssue 1 "one"]
    ∧ (fetch_and_summarize trOne envNone echoOracle none dataC9).1.1.collection_summary = none
    ∧ (fetch_and_summarize trOne envNone echoOracle none dataC9).1.1.summary_error = none
    ∧ (fetch_and_summarize trOne envNone echoOracle none dataC9).1.1.individual_summaries = none
    ∧ (fetch_and_summarize trOne envNone echoOracle none dataC9).1.1.provider = none
    ∧ (fetch_and_summarize trOne envNone echoOracle none dataC9).2 = none := by
  refine ⟨by decide, by decide, by decide, by decide, by decide, by decide⟩

/-- Request whose fetch fails validation (missing username). -/
def dataC9bad : RequestData :=
  { dataC9 with username := none, user := none }

/-- Witness for C9: a failing fetch is returned unchanged at a
concrete request missing its username. -/
theorem C9_witness :
    fetch_and_summarize trOne envNone echoOracle none dataC9bad
        = (({ error := some "Missing required fields: project_url and username"
              success := some false }, 400), none) :=
  (C9_fetch_then_summarize trOne envNone echoOracle none dataC9bad).1
    { error := some "Missing required fields: project_url and username"
      success := some false } 400 (by decide) (Or.inl (by decide))

/-! ## Claim C10: mock issues carry no thread -/

/-- C10 (confirmed): every issue reconstructed at the summarize
boundary through MockIssue has no comments attribute, so its rendered
thread is the No comments placeholder regardless of any comments
supplied in the issue dict; only issues carrying an attached comments
attribute — those coming straight from a fetch — render their thread
text from it. -/
theorem C10_mock_thread_placeholder (d : IssueDict) :
    (duckOfMock (mkMockIssue d)).comments = none
    ∧ comments_text (duckOfMock (mkMockIssue d)) = ""
    ∧ thread_section (duckOfMock (mkMockIssue d)) = "No comments"
    ∧ (∀ f : FetchedIssue, f.comments ≠ [] →
        comments_text (duckOfFetched f) = pyJoin "\n" (f.comments.filterMap comment_line)) := by
  refine ⟨rfl, rfl, rfl, ?_⟩
  intro f h
  have hle : f.comments.isEmpty = false := by
    cases hc : f.comments with
    | nil => exact absurd hc h
    | cons x xs => rfl
  unfold comments_text duckOfFetched
  simp [hle]

/-- Issue dict that does carry a supplied comment thread. -/
def dictWithComments : IssueDict :=
  { dictOne with
    comments := some [CommentEntry.note
      { id := 7, author := "bob", body := "hello", created_at := "2024-03-01T00:00:00Z"
        llm_summary := none }] }

/-- Fetched issue carrying the same comment as dictWithComments. -/
def fetchedWithComment : FetchedIssue :=
  { base := wIssue 1 "one"
    comments := [CommentEntry.note
      { id := 7, author := "bob", body := "hello", created_at := "2024-03-01T00:00:00Z"
        llm_summary := none }] }

/-- Witness for C10: even for a dict supplying comments, the rendered
thread at the summarize boundary is the placeholder, while the fetched
view of the same thread renders the comment line. -/
theorem C10_witness :
    thread_section (duckOfMock (mkMockIssue dictWithComments)) = "No comments"
    ∧ comments_text (duckOfFetched fetchedWithComment)
        = pyJoin "\n" (fetchedWithComment.comments.filterMap comment_line) :=
  ⟨(C10_mock_thread_placeholder dictWithComments).2.2.1,
   (C10_mock_thread_placeholder dictWithComments).2.2.2 fetchedWithComment (by decide)⟩

end GitlabPipeline
